import Mathlib

/-!
Verification development for the triper repository.

The file embeds, as executable Lean definitions, the parts of the source
that the verified properties are about:

* the Arcis matching circuit `encrypted-ixs/src/trip_matching.rs`
  (module `circuits`): `compute_route_similarity`, `compute_date_overlap`,
  `compute_interest_similarity` and `compute_trip_match`;
* the on-chain lifecycle instructions of the `triper` program:
  `initiate_match`, `accept_match`, `record_match`, `deactivate_trip`,
  together with the account types from `state/trip.rs` and
  `state/match_record.rs` and the error enum from `error.rs`;
* the `reveal_for_mutual` instruction of the `triper-mxe` program.

Machine integers are modelled with `Nat`/`Int`.  The route and interest
computations use `u32` counters whose values are proved to stay within
range (the intersection count never exceeds `count_a ≤ 255`, each loop has
at most 400 iterations), so plain `Nat` is exact there.  The date
computation is genuinely 64-bit: every `i64` addition, subtraction,
multiplication and division of the circuit is wrapped with `wrap64`, an
explicit two-complement reduction modulo `2 ^ 64` into `[-2^63, 2^63)`.
`i64` division truncates toward zero, which is `Int.tdiv`; a Rust `as u8`
cast keeps the low byte of the value, which on `Int` is `%` (Euclidean
remainder) by 256 followed by `toNat`.
-/

namespace Triper

namespace Engine

/-- Capacity of the waypoint array, `MAX_WAYPOINTS` in `trip_matching.rs`. -/
def MAX_WAYPOINTS : Nat := 20

/-- Capacity of the interest flag vector, `MAX_INTERESTS` in `trip_matching.rs`. -/
def MAX_INTERESTS : Nat := 32

/-- Mirror of `struct TripData` in `trip_matching.rs`: `waypoints : [u64; 20]`,
`waypoint_count : u8`, `start_date end_date : i64`, `interests : [bool; 32]`.
The fixed-size arrays are modelled as lists read through `getD`, which is
the identity on lists of the fixed length used by the source. -/
structure TripData where
  waypoints : List Nat
  waypoint_count : Nat
  start_date : Int
  end_date : Int
  interests : List Bool
deriving DecidableEq

/-- One iteration of the inner `for j in 0..MAX_WAYPOINTS` loop of
`compute_route_similarity`: if `j` is a valid, not yet visited slot of A
holding `cell_b`, increment the intersection count and mark it visited.
The state is `(intersection_count, visited)`. -/
def innerStep (waypoints_a : List Nat) (count_a : Nat) (cell_b : Nat)
    (s : Nat × List Bool) (j : Nat) : Nat × List Bool :=
  if j < count_a ∧ s.2.getD j false = false ∧ waypoints_a.getD j 0 = cell_b then
    (s.1 + 1, s.2.set j true)
  else
    s

/-- One iteration of the outer `for i in 0..MAX_WAYPOINTS` loop of
`compute_route_similarity`: when slot `i` of B is valid, run the inner loop
against `cell_b = waypoints_b[i]`. -/
def outerStep (waypoints_a : List Nat) (count_a : Nat)
    (waypoints_b : List Nat) (count_b : Nat)
    (s : Nat × List Bool) (i : Nat) : Nat × List Bool :=
  if i < count_b then
    (List.range MAX_WAYPOINTS).foldl
      (innerStep waypoints_a count_a (waypoints_b.getD i 0)) s
  else
    s

/-- The double loop of `compute_route_similarity`, started from
`intersection_count = 0` and `visited = [false; MAX_WAYPOINTS]`. -/
def routeLoop (waypoints_a : List Nat) (count_a : Nat)
    (waypoints_b : List Nat) (count_b : Nat) : Nat × List Bool :=
  (List.range MAX_WAYPOINTS).foldl
    (outerStep waypoints_a count_a waypoints_b count_b)
    (0, List.replicate MAX_WAYPOINTS false)

/-- `intersection_count` after the double loop of `compute_route_similarity`. -/
def route_intersection (waypoints_a : List Nat) (count_a : Nat)
    (waypoints_b : List Nat) (count_b : Nat) : Nat :=
  (routeLoop waypoints_a count_a waypoints_b count_b).1

/-- `union_nonzero` of `compute_route_similarity`:
`union_count = count_a + count_b - intersection_count` (u32 arithmetic),
with `0` replaced by `1` to guard the division. -/
def route_union_nonzero (waypoints_a : List Nat) (count_a : Nat)
    (waypoints_b : List Nat) (count_b : Nat) : Nat :=
  let union_count :=
    count_a + count_b - route_intersection waypoints_a count_a waypoints_b count_b
  if union_count = 0 then 1 else union_count

/-- Mirror of `compute_route_similarity` in `trip_matching.rs`: Jaccard-style
percentage of the waypoint multisets, clamped to 100, forced to 0 when either
count is 0. -/
def compute_route_similarity (waypoints_a : List Nat) (count_a : Nat)
    (waypoints_b : List Nat) (count_b : Nat) : Nat :=
  let has_waypoints := 0 < count_a ∧ 0 < count_b
  let jaccard_percentage :=
    route_intersection waypoints_a count_a waypoints_b count_b * 100 /
      route_union_nonzero waypoints_a count_a waypoints_b count_b
  let clamped := if jaccard_percentage > 100 then 100 else jaccard_percentage
  if has_waypoints then clamped else 0

/-- 64-bit two-complement wrap-around: the value of an `i64` arithmetic
result, reduced modulo `2 ^ 64` into `[-2^63, 2^63)`.  Applied to the
result of every `i64` addition, subtraction, multiplication and division
of the date computation, whose operands — unlike the small `u32` counters
of the route and interest loops — can genuinely overflow. -/
def wrap64 (x : Int) : Int := (x + 2 ^ 63) % 2 ^ 64 - 2 ^ 63

/-- `overlap_duration` of `compute_date_overlap`: the length of the
intersection of the two ranges when non-empty, else `0`; the `i64`
subtraction wraps. -/
def overlap_duration (start_a end_a start_b end_b : Int) : Int :=
  let overlap_start := if start_a > start_b then start_a else start_b
  let overlap_end := if end_a < end_b then end_a else end_b
  if overlap_end ≥ overlap_start then wrap64 (overlap_end - overlap_start)
  else 0

/-- `avg_duration` of `compute_date_overlap`:
`((end_a - start_a) + (end_b - start_b)) / 2` in wrapping `i64` arithmetic
with truncating division.  Division by the constant 2 cannot leave the
`i64` range, so its result needs no wrap. -/
def avg_duration (start_a end_a start_b end_b : Int) : Int :=
  let duration_a := wrap64 (end_a - start_a)
  let duration_b := wrap64 (end_b - start_b)
  Int.tdiv (wrap64 (duration_a + duration_b)) 2

/-- `avg_duration_nonzero` of `compute_date_overlap`: the guarded divisor. -/
def avg_duration_nonzero (start_a end_a start_b end_b : Int) : Int :=
  if avg_duration start_a end_a start_b end_b = 0 then 1
  else avg_duration start_a end_a start_b end_b

/-- Mirror of `compute_date_overlap` in `trip_matching.rs`.  The `i64`
multiplication by 100 and the division wrap (the division only in the
`-2^63 / -1` corner); the final `clamped as u8` cast is the low byte of
the `i64` value. -/
def compute_date_overlap (start_a end_a start_b end_b : Int) : Nat :=
  let percentage :=
    wrap64 (Int.tdiv
      (wrap64 (overlap_duration start_a end_a start_b end_b * 100))
      (avg_duration_nonzero start_a end_a start_b end_b))
  let clamped := if percentage > 100 then 100 else percentage
  ((clamped % 256).toNat)

/-- One iteration of the `for i in 0..32` loop of
`compute_interest_similarity`.  The state is `(common_count, total_count)`. -/
def interestStep (interests_a interests_b : List Bool)
    (s : Nat × Nat) (i : Nat) : Nat × Nat :=
  if interests_a.getD i false ∧ interests_b.getD i false then
    (s.1 + 1, s.2 + 1)
  else if interests_a.getD i false ∨ interests_b.getD i false then
    (s.1, s.2 + 1)
  else
    s

/-- `(common_count, total_count)` after the loop of
`compute_interest_similarity`. -/
def interestCounts (interests_a interests_b : List Bool) : Nat × Nat :=
  (List.range MAX_INTERESTS).foldl (interestStep interests_a interests_b) (0, 0)

/-- `total_nonzero` of `compute_interest_similarity`: the guarded divisor. -/
def total_nonzero (interests_a interests_b : List Bool) : Nat :=
  if (interestCounts interests_a interests_b).2 = 0 then 1
  else (interestCounts interests_a interests_b).2

/-- Mirror of `compute_interest_similarity` in `trip_matching.rs`. -/
def compute_interest_similarity (interests_a interests_b : List Bool) : Nat :=
  let common_count := (interestCounts interests_a interests_b).1
  let total_count := (interestCounts interests_a interests_b).2
  if total_count = 0 then 100
  else common_count * 100 / total_nonzero interests_a interests_b

/-- Mirror of the `compute_trip_match` instruction in `trip_matching.rs`:
the three primitive scores plus the weighted total
`(route*40 + date*35 + interest*25) / 100` (u32 arithmetic; every operand
is at most 255 so the arithmetic never wraps and the final `as u8` cast is
the identity). -/
def compute_trip_match (trip_a trip_b : TripData) : Nat × Nat × Nat × Nat :=
  let route_score :=
    compute_route_similarity trip_a.waypoints trip_a.waypoint_count
      trip_b.waypoints trip_b.waypoint_count
  let date_score :=
    compute_date_overlap trip_a.start_date trip_a.end_date
      trip_b.start_date trip_b.end_date
  let interest_score :=
    compute_interest_similarity trip_a.interests trip_b.interests
  let total_score :=
    (route_score * 40 + date_score * 35 + interest_score * 25) / 100
  (route_score, date_score, interest_score, total_score)

end Engine

namespace Onchain

/-- Mirror of `enum MatchStatus` in
`programs/triper/src/state/match_record.rs` (lines 66-71).  The enum has
exactly the three variants `Pending`, `Mutual`, `Rejected`; there is no
`Computing`, `Completed` or `Failed` variant. -/
inductive MatchStatus where
  | Pending
  | Mutual
  | Rejected
deriving DecidableEq

/-- Mirror of `enum ErrorCode` in `programs/triper/src/error.rs`. -/
inductive ErrorCode where
  | InvalidMatchStatus
  | Unauthorized
  | TripNotActive
  | UserProfileNotActive
  | UnauthorizedAccess
  | InvalidMxeAccount
  | ComputationFailed
  | ClusterNotSet
  | EncryptedDataTooLarge
  | InvalidDateRange
  | SameTripMatch
  | QuotaExceeded
  | InsufficientFunds
  | InvalidScore
deriving DecidableEq

/-- Outcome classification of an instruction.  A failed Anchor constraint
that names no custom code (`constraint = ...` with no `@`), a failed PDA
`seeds` check, and a failed `init` on an account that already exists abort
the transaction with framework errors rather than an `ErrorCode`; they are
modelled by the last three constructors. -/
inductive TxError where
  | program (e : ErrorCode)
  | constraintRaw
  | constraintSeeds
  | accountAlreadyInUse
deriving DecidableEq

/-- Mirror of `struct Trip` in `programs/triper/src/state/trip.rs`, keeping
the fields the embedded instructions read or write.  `key` is the account
address (a `Pubkey`, modelled as `Nat`), implicit in Anchor.
`computation_count` is the counter field referenced by
`instructions/record_match.rs`; `match_count` is the quota counter of
`state/trip.rs` used by `instructions/initiate_match.rs`. -/
structure Trip where
  key : Nat
  owner : Nat
  start_date : Int
  end_date : Int
  is_active : Bool
  match_count : Nat
  computation_count : Nat
  created_at : Int
deriving DecidableEq

/-- Mirror of `struct Match` (aliased `MatchRecord`) in
`programs/triper/src/state/match_record.rs`. -/
structure MatchAccount where
  trip_a : Nat
  trip_b : Nat
  total_score : Nat
  route_score : Nat
  date_score : Nat
  interest_score : Nat
  status : MatchStatus
  trip_a_accepted : Bool
  trip_b_accepted : Bool
  created_at : Int
  computation_id : List Nat
deriving DecidableEq

/-- Mirror of `struct MatchResult` in `programs/triper/src/confidential.rs`
(lines 8-14): the four `u8` scores delivered by the computation. -/
structure MatchResult where
  route_score : Nat
  date_score : Nat
  interest_score : Nat
  total_score : Nat
deriving DecidableEq

/-- The PDA seed key of a match record,
`seeds = [b"match", trip_a.key(), trip_b.key()]` in
`instructions/initiate_match.rs` (lines 26-41): the ordered pair of the two
trip account addresses (the constant `b"match"` tag is common to all keys
and omitted). -/
def matchSeeds (trip_a_key trip_b_key : Nat) : Nat × Nat :=
  (trip_a_key, trip_b_key)

/-- Result of a successful `initiate_match`: the registry of existing match
record keys extended with the new key, the created record, and the two
updated trips. -/
structure InitiateResult where
  registry : List (Nat × Nat)
  match_record : MatchAccount
  trip_a : Trip
  trip_b : Trip
deriving DecidableEq

/-- Mirror of the `InitiateMatch` accounts struct and
`initiate_match_handler` in `programs/triper/src/instructions/initiate_match.rs`.
`registry` is the set of match record PDA keys that already exist (the
Registry collaborator); `init` fails when the derived key is present.
Checks, in source order: the `trip_a.owner == payer` constraint
(`Unauthorized`), the PDA `init` (account already in use), then the handler
requires `trip_a.owner != trip_b.owner` (`SameTripMatch`) and
`trip_a.match_count < 100` (`QuotaExceeded`).  The `is_active` flag of neither trip is read, and
`trip_b.match_count` is not checked.  On success the
record starts `Pending` with both consent flags false and all four scores
zero, and the `match_count` of both trips is incremented. -/
def initiate_match (registry : List (Nat × Nat)) (payer : Nat)
    (trip_a trip_b : Trip) (now : Int) : Except TxError InitiateResult :=
  if trip_a.owner ≠ payer then
    .error (.program .Unauthorized)
  else if matchSeeds trip_a.key trip_b.key ∈ registry then
    .error .accountAlreadyInUse
  else if trip_a.owner = trip_b.owner then
    .error (.program .SameTripMatch)
  else if ¬ trip_a.match_count < 100 then
    .error (.program .QuotaExceeded)
  else
    .ok
      { registry := matchSeeds trip_a.key trip_b.key :: registry
        match_record :=
          { trip_a := trip_a.key
            trip_b := trip_b.key
            total_score := 0
            route_score := 0
            date_score := 0
            interest_score := 0
            status := .Pending
            trip_a_accepted := false
            trip_b_accepted := false
            created_at := now
            computation_id := List.replicate 32 0 }
        trip_a := { trip_a with match_count := trip_a.match_count + 1 }
        trip_b := { trip_b with match_count := trip_b.match_count + 1 } }

/-- Mirror of the `AcceptMatch` accounts struct and `handler` in
`programs/triper/src/instructions/accept_match.rs` (lines 5-44).
Constraints, in source order: `match_account.status == MatchStatus::Pending`
(`InvalidMatchStatus`), `trip.owner == user.key()` (`Unauthorized`).  The
handler sets the consent flag of whichever side the supplied trip is, fails
`Unauthorized` when the trip is neither side, and advances the status to
`Mutual` once both flags are true. -/
def accept_match (match_account : MatchAccount) (trip : Trip) (user : Nat) :
    Except TxError MatchAccount :=
  if match_account.status ≠ .Pending then
    .error (.program .InvalidMatchStatus)
  else if trip.owner ≠ user then
    .error (.program .Unauthorized)
  else if user = trip.owner ∧ trip.key = match_account.trip_a then
    let m := { match_account with trip_a_accepted := true }
    if m.trip_a_accepted ∧ m.trip_b_accepted then .ok { m with status := .Mutual }
    else .ok m
  else if user = trip.owner ∧ trip.key = match_account.trip_b then
    let m := { match_account with trip_b_accepted := true }
    if m.trip_a_accepted ∧ m.trip_b_accepted then .ok { m with status := .Mutual }
    else .ok m
  else
    .error (.program .Unauthorized)

/-- Result of a successful `record_match`: the updated record and trips. -/
structure RecordResult where
  match_account : MatchAccount
  trip_a : Trip
  trip_b : Trip
deriving DecidableEq

/-- Mirror of the `RecordMatch` accounts struct and `handler` in
`programs/triper/src/instructions/record_match.rs`.  Constraints, in source
order: the `seeds = [b"match", trip_a.key(), trip_b.key()]` PDA check (the
address of the record was derived from its two trip keys at `init`, so the
check holds exactly when the supplied trips are the pair of the record),
then
`trip_a.is_active` and `trip_b.is_active` (raw constraints).  The handler
has no status precondition: it stores the four scores and the computation
id, sets the status to `Pending`, and increments the `computation_count`
of both trips. -/
def record_match (match_account : MatchAccount) (trip_a trip_b : Trip)
    (match_result : MatchResult) (computation_id : List Nat) :
    Except TxError RecordResult :=
  if ¬ (match_account.trip_a = trip_a.key ∧ match_account.trip_b = trip_b.key) then
    .error .constraintSeeds
  else if trip_a.is_active = false then
    .error .constraintRaw
  else if trip_b.is_active = false then
    .error .constraintRaw
  else
    .ok
      { match_account :=
          { match_account with
            total_score := match_result.total_score
            route_score := match_result.route_score
            date_score := match_result.date_score
            interest_score := match_result.interest_score
            computation_id := computation_id
            status := .Pending }
        trip_a := { trip_a with computation_count := trip_a.computation_count + 1 }
        trip_b := { trip_b with computation_count := trip_b.computation_count + 1 } }

/-- Mirror of the `DeactivateTrip` accounts struct and
`deactivate_trip_handler` in
`programs/triper/src/instructions/deactivate_trip.rs` (lines 8-28).
Constraints, in source order: `trip.owner == user.key()` (`Unauthorized`),
`trip.is_active` (`TripNotActive`).  The handler clears the active flag. -/
def deactivate_trip (trip : Trip) (user : Nat) : Except TxError Trip :=
  if trip.owner ≠ user then
    .error (.program .Unauthorized)
  else if trip.is_active = false then
    .error (.program .TripNotActive)
  else
    .ok { trip with is_active := false }

end Onchain

namespace Mxe

/-- Mirror of `enum MxeError` in `programs/triper-mxe/src/error.rs`.  Note
that `NotMutualMatch` exists in the enum but is raised nowhere. -/
inductive MxeError where
  | TripNotActive
  | ComputationInProgress
  | ComputationNotComplete
  | Unauthorized
  | NotMutualMatch
  | InvalidEncryptedData
  | DecryptionFailed
deriving DecidableEq

/-- Mirror of `struct EncryptedTrip` in
`programs/triper-mxe/src/state/encrypted_trip.rs`. -/
structure EncryptedTrip where
  owner : Nat
  public_trip : Nat
  encrypted_route : List (List Nat)
  encrypted_dates : List (List Nat)
  encrypted_interests : List (List Nat)
  created_at : Int
  is_active : Bool
deriving DecidableEq

/-- Mirror of the `RevealForMutual` accounts struct and `handler` in
`programs/triper-mxe/src/instructions/reveal_for_mutual.rs` (lines 7-39).
The accounts struct places no constraint on either account (the source
carries a TODO noting that the `MatchRecord.status == Mutual` check is
missing), and the handler only logs: it performs no status check, no
authorization check, decrypts nothing, and unconditionally returns
`Ok(())`. -/
def reveal_for_mutual (encrypted_trip : EncryptedTrip) (requester : Nat) :
    Except MxeError Unit :=
  .ok ()

end Mxe

namespace Examples

/-- Aggregate example, trip A: waypoints `{1,2,3}` (count 3), dates
`[0,10]`, interest flags at indices `{0,1,2}`. -/
def aggTripA : Engine.TripData :=
  { waypoints := [1, 2, 3], waypoint_count := 3,
    start_date := 0, end_date := 10,
    interests := [true, true, true] }

/-- Aggregate example, trip B: waypoints `{2,3,4}` (count 3), dates
`[5,15]`, interest flags at indices `{1,2,3}`. -/
def aggTripB : Engine.TripData :=
  { waypoints := [2, 3, 4], waypoint_count := 3,
    start_date := 5, end_date := 15,
    interests := [false, true, true, true] }

/-- Boundary example, trip A: one waypoint, dates `[0,10]`, one interest. -/
def boundaryTripA : Engine.TripData :=
  { waypoints := [7], waypoint_count := 1,
    start_date := 0, end_date := 10,
    interests := [true] }

/-- Boundary example, trip B: the same waypoint (route = 100), disjoint
dates `[20,30]` (date = 0), a disjoint interest (interest = 0). -/
def boundaryTripB : Engine.TripData :=
  { waypoints := [7], waypoint_count := 1,
    start_date := 20, end_date := 30,
    interests := [false, true] }

/-- An active trip with key 1, owner 10, zero counters. -/
def tripA1 : Onchain.Trip :=
  { key := 1, owner := 10, start_date := 0, end_date := 10,
    is_active := true, match_count := 0, computation_count := 0,
    created_at := 0 }

/-- An active trip with key 2, owner 20, zero counters. -/
def tripB2 : Onchain.Trip :=
  { key := 2, owner := 20, start_date := 0, end_date := 10,
    is_active := true, match_count := 0, computation_count := 0,
    created_at := 0 }

/-- A trip with key 2 and owner 20 that is inactive and already at the
quota ceiling (`match_count = 100`). -/
def tripB2worst : Onchain.Trip :=
  { key := 2, owner := 20, start_date := 0, end_date := 10,
    is_active := false, match_count := 100, computation_count := 0,
    created_at := 0 }

/-- A trip with key 3 owned by owner 10 (the same owner as `tripA1`). -/
def tripC3sameOwner : Onchain.Trip :=
  { key := 3, owner := 10, start_date := 0, end_date := 10,
    is_active := true, match_count := 0, computation_count := 0,
    created_at := 0 }

/-- A match record for the pair (1, 2) in status `Pending`, no consent. -/
def pendingRecord12 : Onchain.MatchAccount :=
  { trip_a := 1, trip_b := 2,
    total_score := 0, route_score := 0, date_score := 0, interest_score := 0,
    status := .Pending, trip_a_accepted := false, trip_b_accepted := false,
    created_at := 0, computation_id := List.replicate 32 0 }

/-- A match record for the pair (1, 2) that already reached `Mutual`. -/
def mutualRecord12 : Onchain.MatchAccount :=
  { trip_a := 1, trip_b := 2,
    total_score := 0, route_score := 0, date_score := 0, interest_score := 0,
    status := .Mutual, trip_a_accepted := true, trip_b_accepted := true,
    created_at := 0, computation_id := List.replicate 32 0 }

/-- A concrete score quadruple delivered by the computation. -/
def someScores : Onchain.MatchResult :=
  { route_score := 10, date_score := 20, interest_score := 30, total_score := 40 }

/-- Overflow example, trip A: a huge but `i64`-representable date range
`(-2^63 + 101, 100)` with `end > start`, one waypoint, one interest. -/
def overflowTripA : Engine.TripData :=
  { waypoints := [1], waypoint_count := 1,
    start_date := -(2 ^ 63) + 101, end_date := 100,
    interests := [true] }

/-- Overflow example, trip B: the `i64`-representable range
`(0, 2^63 - 199)` with `end > start`, the same waypoint and interest as
trip A. -/
def overflowTripB : Engine.TripData :=
  { waypoints := [1], waypoint_count := 1,
    start_date := 0, end_date := 2 ^ 63 - 199,
    interests := [true] }

/-- A concrete encrypted-trip account of the MXE program. -/
def encTrip1 : Mxe.EncryptedTrip :=
  { owner := 1, public_trip := 2, encrypted_route := [], encrypted_dates := [],
    encrypted_interests := [], created_at := 0, is_active := true }

end Examples

end Triper

namespace Triper

/-- Folding two pointwise-equal step functions gives the same result. -/
theorem foldl_congr_step {α β : Type} {f g : α → β → α}
    (h : ∀ s i, f s i = g s i) :
    ∀ (l : List β) (s : α), l.foldl f s = l.foldl g s := by
  intro l
  induction l with
  | nil => intro s; rfl
  | cons a t ih =>
      intro s
      simp only [List.foldl_cons, h]
      exact ih _

/-- One step of the interest loop is symmetric in the two flag vectors. -/
theorem interestStep_comm (a b : List Bool) (s : Nat × Nat) (i : Nat) :
    Engine.interestStep a b s i = Engine.interestStep b a s i := by
  unfold Engine.interestStep
  cases ha : a.getD i false <;> cases hb : b.getD i false <;> simp [ha, hb]

/-- The `(common_count, total_count)` pair is symmetric. -/
theorem interestCounts_comm (a b : List Bool) :
    Engine.interestCounts a b = Engine.interestCounts b a :=
  foldl_congr_step (interestStep_comm a b) _ _

/-- `compute_interest_similarity` is symmetric. -/
theorem compute_interest_similarity_comm (a b : List Bool) :
    Engine.compute_interest_similarity a b =
      Engine.compute_interest_similarity b a := by
  unfold Engine.compute_interest_similarity Engine.total_nonzero
  rw [interestCounts_comm a b]

end Triper

/-- C6: the claim asserts `routeSimilarity` is symmetric for all waypoint
arrays with counts at most 20, and `interestSimilarity` is symmetric for
all flag vectors.  The second half holds, but the first fails when a
populated waypoint value is duplicated: the inner loop of
`compute_route_similarity` lacks the per-`cell_b` stop its own comment
claims ("we continue but skip further checks"), so one cell of B consumes
every matching slot of A at once.  On A = `[5,5]` (count 2) versus
B = `[5]` (count 1) the score is 100 one way and 50 the other. -/
theorem Triper.route_similarity_asymmetric_on_duplicates :
    Triper.Engine.compute_route_similarity [5, 5] 2 [5] 1 = 100 ∧
    Triper.Engine.compute_route_similarity [5] 1 [5, 5] 2 = 50 ∧
    ∀ fa fb : List Bool,
      Triper.Engine.compute_interest_similarity fa fb =
        Triper.Engine.compute_interest_similarity fb fa :=
  ⟨by decide, by decide, Triper.compute_interest_similarity_comm⟩

/-- C9: on the aggregate example (waypoints `{1,2,3}` vs `{2,3,4}`, dates
`[0,10]` vs `[5,15]`, interests `{0,1,2}` vs `{1,2,3}`) the engine returns
route = date = interest = total = 50; and on an input with component
scores (100, 0, 0) the fixed 40/35/25 weighting gives total
`floor(100*40)/100 = 40`. -/
theorem Triper.engine_aggregate_examples :
    Triper.Engine.compute_trip_match Triper.Examples.aggTripA
        Triper.Examples.aggTripB = (50, 50, 50, 50) ∧
    Triper.Engine.compute_trip_match Triper.Examples.boundaryTripA
        Triper.Examples.boundaryTripB = (100, 0, 0, 40) := by
  constructor <;> decide

/-- C1: the claim says `reveal(matchId)` fails with `NotMutual` whenever the
status of the match record is not `Mutual`.  The `reveal_for_mutual` handler of
the MXE program contradicts this (and its own header comment and TODO): it
never reads a match record, checks nothing, and unconditionally succeeds —
for every status different from `Mutual` the call still returns `Ok(())`.
It also returns no decrypted plan content in any case. -/
theorem Triper.reveal_ignores_match_status :
    ∀ (status : Triper.Onchain.MatchStatus)
      (encrypted_trip : Triper.Mxe.EncryptedTrip) (requester : Nat),
      status ≠ Triper.Onchain.MatchStatus.Mutual →
      Triper.Mxe.reveal_for_mutual encrypted_trip requester = Except.ok () := by
  intro _ _ _ _
  rfl

/-- Witness for C1: a reveal call while the (ignored) match status is
`Pending` succeeds. -/
theorem Triper.reveal_ignores_match_status_witness :
    Triper.Mxe.reveal_for_mutual Triper.Examples.encTrip1 5 = Except.ok () :=
  Triper.reveal_ignores_match_status .Pending Triper.Examples.encTrip1 5
    (by decide)

/-- C2 counterexample: the claim says a second creation attempt for the
same unordered pair in either argument order fails with `DuplicateMatch`.
With trips keyed 1 (owner 10) and 2 (owner 20): `initiate(A, B)` succeeds,
and `initiate(B, A)` on the resulting registry succeeds as well, creating a
second record for the same unordered pair, because the PDA seeds
`[b"match", trip_a, trip_b]` are order-sensitive. -/
theorem Triper.initiate_reversed_not_duplicate :
    (Triper.Onchain.initiate_match [] 10 Triper.Examples.tripA1
        Triper.Examples.tripB2 0).map
      (fun r =>
        (Triper.Onchain.initiate_match r.registry 20 Triper.Examples.tripB2
            Triper.Examples.tripA1 0).isOk) = Except.ok true := rfl

/-- C3 counterexample: the claim says `initiate` fails if either plan is
inactive and when the counter ceiling of either plan would be exceeded.  With
trip B inactive and already at the ceiling (`match_count = 100`),
`initiate(A, B)` nevertheless succeeds: the handler reads the `is_active`
flag of neither trip and only checks the counter of trip A. -/
theorem Triper.initiate_ignores_inactive_and_b_quota :
    (Triper.Onchain.initiate_match [] 10 Triper.Examples.tripA1
        Triper.Examples.tripB2worst 0).isOk = true := rfl

/-- C10: `deactivate_trip` succeeds exactly when the caller owns the trip
and the trip is active; a non-owner fails with `Unauthorized`, the
owner on an already-inactive trip fails with `TripNotActive` (deactivation
is not idempotent), and on success the active flag becomes false. -/
theorem Triper.deactivate_trip_spec :
    ∀ (t : Triper.Onchain.Trip) (u : Nat),
      ((Triper.Onchain.deactivate_trip t u).isOk = true ↔
        (t.owner = u ∧ t.is_active = true)) ∧
      (t.owner ≠ u →
        Triper.Onchain.deactivate_trip t u =
          Except.error (.program .Unauthorized)) ∧
      (t.owner = u → t.is_active = false →
        Triper.Onchain.deactivate_trip t u =
          Except.error (.program .TripNotActive)) ∧
      (t.owner = u → t.is_active = true →
        Triper.Onchain.deactivate_trip t u =
          Except.ok { t with is_active := false }) := by
  intro t u
  unfold Triper.Onchain.deactivate_trip
  split_ifs with h1 h2 <;>
    simp_all [Except.isOk, Except.toBool]

/-- Witness for C10: the owner of the active trip keyed 1 deactivates it. -/
theorem Triper.deactivate_trip_spec_witness :
    Triper.Onchain.deactivate_trip Triper.Examples.tripA1 10 =
      Except.ok { Triper.Examples.tripA1 with is_active := false } :=
  (Triper.deactivate_trip_spec Triper.Examples.tripA1 10).2.2.2 rfl rfl

/-- C5 (amended reading of a vacuous disjunct): `accept_match` is valid
exactly while the status of the record is `Pending` and the supplied trip,
owned by the signer, is one of the two sides of the record; the status enum
of the embedded program has no `Completed` variant, so the claimed "Pending
or Completed" window reduces to `Pending`.  A signer whose trip is neither
side fails with `Unauthorized`; on success the consent flag of the owned
side is set, and once both flags are true the status advances to `Mutual`;
starting from a fresh record, the accepts of the two owners commute and both
orders deterministically reach `Mutual`. -/
theorem Triper.accept_match_spec :
    (∀ (m : Triper.Onchain.MatchAccount) (t : Triper.Onchain.Trip) (u : Nat),
      ((Triper.Onchain.accept_match m t u).isOk = true ↔
        (m.status = .Pending ∧ t.owner = u ∧
         (t.key = m.trip_a ∨ t.key = m.trip_b))) ∧
      (m.status = .Pending → t.owner = u → t.key ≠ m.trip_a →
        t.key ≠ m.trip_b →
        Triper.Onchain.accept_match m t u =
          Except.error (.program .Unauthorized)) ∧
      (m.status = .Pending → t.owner = u → t.key = m.trip_a →
        Triper.Onchain.accept_match m t u =
          Except.ok (if m.trip_b_accepted then
              { m with trip_a_accepted := true, status := .Mutual }
            else { m with trip_a_accepted := true })) ∧
      (m.status = .Pending → t.owner = u → t.key ≠ m.trip_a →
        t.key = m.trip_b →
        Triper.Onchain.accept_match m t u =
          Except.ok (if m.trip_a_accepted then
              { m with trip_b_accepted := true, status := .Mutual }
            else { m with trip_b_accepted := true }))) ∧
    (∀ (m : Triper.Onchain.MatchAccount) (ta tb : Triper.Onchain.Trip)
        (ua ub : Nat),
      m.status = .Pending → m.trip_a_accepted = false →
      m.trip_b_accepted = false → m.trip_a ≠ m.trip_b →
      ta.owner = ua → tb.owner = ub → ta.key = m.trip_a → tb.key = m.trip_b →
      (Triper.Onchain.accept_match m ta ua).bind
          (fun m1 => Triper.Onchain.accept_match m1 tb ub) =
        Except.ok { m with trip_a_accepted := true, trip_b_accepted := true,
                           status := .Mutual } ∧
      (Triper.Onchain.accept_match m tb ub).bind
          (fun m1 => Triper.Onchain.accept_match m1 ta ua) =
        Except.ok { m with trip_a_accepted := true, trip_b_accepted := true,
                           status := .Mutual }) := by
  constructor
  · intro m t u
    obtain ⟨ma, mb, mts, mrs, mds, mis, ms, mfa, mfb, mct, mcid⟩ := m
    refine ⟨?_, ?_, ?_, ?_⟩
    · cases mfa <;> cases mfb <;> unfold Triper.Onchain.accept_match <;>
        split_ifs <;> simp_all [Except.isOk, Except.toBool]
    · intro hs ho ha hb
      unfold Triper.Onchain.accept_match
      split_ifs <;> simp_all
    · intro hs ho ha
      cases mfb <;> unfold Triper.Onchain.accept_match <;> split_ifs <;>
        simp_all
    · intro hs ho ha hb
      cases mfa <;> unfold Triper.Onchain.accept_match <;> split_ifs <;>
        simp_all
  · intro m ta tb ua ub hs hfa hfb hab hoa hob hka hkb
    obtain ⟨ma, mb, mts, mrs, mds, mis, ms, mfa, mfb, mct, mcid⟩ := m
    simp only at hs hfa hfb hab
    subst hs hfa hfb
    constructor
    · simp [Triper.Onchain.accept_match, hoa, hob, hka, hkb, hab,
        Ne.symm hab, Except.bind]
    · simp [Triper.Onchain.accept_match, hoa, hob, hka, hkb, hab,
        Ne.symm hab, Except.bind]

/-- Witness for C5: on a fresh `Pending` record for the pair (1, 2), owner
10 accepting with trip 1 and then owner 20 accepting with trip 2 reaches
`Mutual` with both flags set. -/
theorem Triper.accept_match_spec_witness :
    (Triper.Onchain.accept_match Triper.Examples.pendingRecord12
        Triper.Examples.tripA1 10).bind
      (fun m1 => Triper.Onchain.accept_match m1 Triper.Examples.tripB2 20) =
      Except.ok { Triper.Examples.pendingRecord12 with
                  trip_a_accepted := true, trip_b_accepted := true,
                  status := .Mutual } :=
  (Triper.accept_match_spec.2 Triper.Examples.pendingRecord12
    Triper.Examples.tripA1 Triper.Examples.tripB2 10 20 rfl rfl rfl
    (by decide) rfl rfl rfl rfl).1

/-- C3 (amended): `initiate_match` checks, besides the payer owning trip A
and the record not already existing, only that the two owners differ
(`SameTripMatch`) and that the counter of trip A is below the ceiling of
100 (`QuotaExceeded`); the active flag of neither trip is read and the
counter of trip B is not checked.  On success the record starts `Pending` with both consent
flags false and all four scores zero, and the counters of both trips are
incremented by one. -/
theorem Triper.initiate_match_spec :
    ∀ (registry : List (Nat × Nat)) (payer : Nat)
      (ta tb : Triper.Onchain.Trip) (now : Int),
      ((Triper.Onchain.initiate_match registry payer ta tb now).isOk = true ↔
        (ta.owner = payer ∧ Triper.Onchain.matchSeeds ta.key tb.key ∉ registry ∧
         ta.owner ≠ tb.owner ∧ ta.match_count < 100)) ∧
      (ta.owner = payer → Triper.Onchain.matchSeeds ta.key tb.key ∉ registry →
        ta.owner = tb.owner →
        Triper.Onchain.initiate_match registry payer ta tb now =
          Except.error (.program .SameTripMatch)) ∧
      (ta.owner = payer → Triper.Onchain.matchSeeds ta.key tb.key ∉ registry →
        ta.owner ≠ tb.owner → ¬ ta.match_count < 100 →
        Triper.Onchain.initiate_match registry payer ta tb now =
          Except.error (.program .QuotaExceeded)) ∧
      (∀ r, Triper.Onchain.initiate_match registry payer ta tb now =
          Except.ok r →
        r.match_record.status = .Pending ∧
        r.match_record.trip_a_accepted = false ∧
        r.match_record.trip_b_accepted = false ∧
        r.match_record.total_score = 0 ∧ r.match_record.route_score = 0 ∧
        r.match_record.date_score = 0 ∧ r.match_record.interest_score = 0 ∧
        r.match_record.trip_a = ta.key ∧ r.match_record.trip_b = tb.key ∧
        r.trip_a.match_count = ta.match_count + 1 ∧
        r.trip_b.match_count = tb.match_count + 1 ∧
        r.registry = Triper.Onchain.matchSeeds ta.key tb.key :: registry) := by
  intro registry payer ta tb now
  refine ⟨?_, ?_, ?_, ?_⟩
  · unfold Triper.Onchain.initiate_match
    split_ifs <;> simp_all [Except.isOk, Except.toBool]
  · intro h1 h2 h3
    unfold Triper.Onchain.initiate_match
    split_ifs <;> simp_all
  · intro h1 h2 h3 h4
    unfold Triper.Onchain.initiate_match
    split_ifs <;> simp_all
  · intro r hok
    unfold Triper.Onchain.initiate_match at hok
    split_ifs at hok <;> cases hok <;> simp

/-- Witness for the C3 theorem: two trips of the same owner fail with
`SameTripMatch`. -/
theorem Triper.initiate_match_spec_witness :
    Triper.Onchain.initiate_match [] 10 Triper.Examples.tripA1
        Triper.Examples.tripC3sameOwner 0 =
      Except.error (.program .SameTripMatch) :=
  (Triper.initiate_match_spec [] 10 Triper.Examples.tripA1
    Triper.Examples.tripC3sameOwner 0).2.1 rfl (by decide) rfl

/-- C2 (amended): the PDA key of a match record is the ordered pair of trip
keys, so the derivation is order-sensitive: with distinct keys the two
orders derive different seeds; a second `initiate` for the same ordered
pair fails because the record account already exists; but after a
successful `initiate(A, B)`, `initiate(B, A)` — signed by the owner of B,
with
the reversed key not previously used and B under quota — succeeds, creating
a second record for the same unordered pair. -/
theorem Triper.initiate_ordered_pair_key :
    (∀ ka kb : Nat, ka ≠ kb →
      Triper.Onchain.matchSeeds ka kb ≠ Triper.Onchain.matchSeeds kb ka) ∧
    (∀ (registry : List (Nat × Nat)) (payer : Nat)
        (ta tb : Triper.Onchain.Trip) (now : Int),
        ta.owner = payer →
        Triper.Onchain.matchSeeds ta.key tb.key ∈ registry →
        Triper.Onchain.initiate_match registry payer ta tb now =
          Except.error .accountAlreadyInUse) ∧
    (∀ (registry : List (Nat × Nat)) (payer : Nat)
        (ta tb : Triper.Onchain.Trip) (now : Int) r,
        Triper.Onchain.initiate_match registry payer ta tb now =
          Except.ok r →
        Triper.Onchain.initiate_match r.registry payer ta tb now =
          Except.error .accountAlreadyInUse) ∧
    (∀ (registry : List (Nat × Nat)) (ta tb : Triper.Onchain.Trip)
        (now : Int) r,
        Triper.Onchain.initiate_match registry ta.owner ta tb now =
          Except.ok r →
        Triper.Onchain.matchSeeds tb.key ta.key ∉ registry →
        ta.key ≠ tb.key →
        tb.match_count < 100 →
        (Triper.Onchain.initiate_match r.registry tb.owner tb ta now).isOk =
          true) := by
  refine ⟨?_, ?_, ?_, ?_⟩
  · intro ka kb hne heq
    exact hne (congrArg Prod.fst heq)
  · intro registry payer ta tb now howner hmem
    unfold Triper.Onchain.initiate_match
    split_ifs <;> simp_all
  · intro registry payer ta tb now r hok
    unfold Triper.Onchain.initiate_match at hok ⊢
    split_ifs at hok with h1 h2 h3 h4 <;> try (cases hok)
    split_ifs with g1 <;> simp_all [List.mem_cons]
  · intro registry ta tb now r hok hrev hkey hquota
    unfold Triper.Onchain.initiate_match at hok ⊢
    split_ifs at hok with h1 h2 h3 h4 <;> try (cases hok)
    have hba : tb.owner ≠ ta.owner := fun h => h3 h.symm
    split_ifs <;>
      simp_all [List.mem_cons, Triper.Onchain.matchSeeds, Except.isOk,
        Except.toBool, Prod.ext_iff]

/-- Witness for the C2 theorem: with the key (1, 2) already in the registry,
a second same-order `initiate` fails because the account exists. -/
theorem Triper.initiate_ordered_pair_key_witness :
    Triper.Onchain.initiate_match [Triper.Onchain.matchSeeds 1 2] 10
        Triper.Examples.tripA1 Triper.Examples.tripB2 0 =
      Except.error .accountAlreadyInUse :=
  Triper.initiate_ordered_pair_key.2.1 [Triper.Onchain.matchSeeds 1 2] 10
    Triper.Examples.tripA1 Triper.Examples.tripB2 0 rfl (by decide)

/-- C4 (amended): `record_match` has no status precondition: it succeeds
exactly when the supplied trips are the pair of the record (the PDA seeds
check) and both are active — whatever the current status of the record; on
success it
stores the four scores and the computation identifier, sets the status to
`Pending` (the status enum has no `Computing`, `Completed` or `Failed`
variant, and no failure-to-`Failed` transition exists), and increments both
computation counters of both trips. -/
theorem Triper.record_match_spec :
    ∀ (m : Triper.Onchain.MatchAccount) (ta tb : Triper.Onchain.Trip)
      (mr : Triper.Onchain.MatchResult) (cid : List Nat),
      ((Triper.Onchain.record_match m ta tb mr cid).isOk = true ↔
        (m.trip_a = ta.key ∧ m.trip_b = tb.key ∧
         ta.is_active = true ∧ tb.is_active = true)) ∧
      (∀ r, Triper.Onchain.record_match m ta tb mr cid = Except.ok r →
        r.match_account.status = .Pending ∧
        r.match_account.route_score = mr.route_score ∧
        r.match_account.date_score = mr.date_score ∧
        r.match_account.interest_score = mr.interest_score ∧
        r.match_account.total_score = mr.total_score ∧
        r.match_account.computation_id = cid ∧
        r.trip_a.computation_count = ta.computation_count + 1 ∧
        r.trip_b.computation_count = tb.computation_count + 1) := by
  intro m ta tb mr cid
  constructor
  · unfold Triper.Onchain.record_match
    split_ifs <;> simp_all [Except.isOk, Except.toBool]
  · intro r hok
    unfold Triper.Onchain.record_match at hok
    split_ifs at hok <;> cases hok <;> simp

/-- Witness for the C4 theorem: recording scores on the `Pending` record of
the active pair (1, 2) succeeds. -/
theorem Triper.record_match_spec_witness :
    (Triper.Onchain.record_match Triper.Examples.pendingRecord12
        Triper.Examples.tripA1 Triper.Examples.tripB2
        Triper.Examples.someScores (List.replicate 32 7)).isOk = true :=
  (Triper.record_match_spec Triper.Examples.pendingRecord12
    Triper.Examples.tripA1 Triper.Examples.tripB2
    Triper.Examples.someScores (List.replicate 32 7)).1.mpr (by decide)

/-- C4 counterexample: the claim says `recordResult` is valid only from
`Computing` (failing in any other status) and on success sets the status to
`Completed`.  On a record in status `Mutual` with both trips active,
`record_match` succeeds, and the resulting status is `Pending`: the handler
has no status precondition, and the status enum has no `Computing`,
`Completed` or `Failed` variant at all. -/
theorem Triper.record_match_any_status_to_pending :
    (Triper.Onchain.record_match Triper.Examples.mutualRecord12
        Triper.Examples.tripA1 Triper.Examples.tripB2
        Triper.Examples.someScores (List.replicate 32 7)).map
      (fun r => r.match_account.status) =
      Except.ok Triper.Onchain.MatchStatus.Pending := rfl

namespace Triper

/-- Number of valid (index below `count_a`), not yet visited slots of the
route-similarity state: the quantity that decreases whenever
`intersection_count` increases. -/
def freeCount (count_a : Nat) (vis : List Bool) : Nat :=
  ((List.range 20).filter
    (fun j => decide (j < count_a) && !(vis.getD j false))).length

theorem getD_set_self (l : List Bool) (j : Nat) (h : j < l.length) :
    (l.set j true).getD j false = true := by
  simp [List.getD, List.getElem?_set, h]

theorem getD_set_ne (l : List Bool) (j k : Nat) (h : k ≠ j) :
    (l.set j true).getD k false = l.getD k false := by
  simp only [List.getD, List.get?_eq_getElem?, List.getElem?_set]
  rw [if_neg (fun hh : j = k => h hh.symm)]

theorem getD_replicate_false (n j : Nat) :
    (List.replicate n false).getD j false = false := by
  rcases Nat.lt_or_ge j n with h | h
  · simp [List.getD, List.getElem?_replicate, h]
  · have hlen : (List.replicate n false).length ≤ j := by simpa using h
    simp [List.getD, List.getElem?_eq_none hlen]

/-- Flipping one satisfied element of a duplicate-free list out of a filter
shrinks the filtered length by at least one. -/
theorem filter_length_flip {L : List Nat} {p q : Nat → Bool} {j : Nat}
    (hnd : L.Nodup) (hj : j ∈ L) (hpj : p j = true) (hqj : q j = false)
    (hagree : ∀ k, k ≠ j → q k = p k) :
    (L.filter q).length + 1 ≤ (L.filter p).length := by
  induction L with
  | nil => cases hj
  | cons a t ih =>
      rcases List.mem_cons.mp hj with rfl | hjt
      · have hat : j ∉ t := (List.nodup_cons.mp hnd).1
        have hft : t.filter q = t.filter p :=
          List.filter_congr (fun k hk => hagree k (fun h => hat (h ▸ hk)))
        rw [List.filter_cons, List.filter_cons, hpj, hqj, hft]
        simp
      · have hndt : t.Nodup := (List.nodup_cons.mp hnd).2
        have haj : a ≠ j := fun h => (List.nodup_cons.mp hnd).1 (h ▸ hjt)
        have := ih hndt hjt
        rw [List.filter_cons, List.filter_cons, hagree a haj]
        cases hpa : p a <;> simp [hpa] <;> omega

/-- One inner-loop step never increases `intersection_count + freeCount`
and keeps the visited array at length 20. -/
theorem innerStep_measure (wa : List Nat) (ca cell : Nat)
    (s : Nat × List Bool) (j : Nat) (hj : j < 20) (hlen : s.2.length = 20) :
    (Engine.innerStep wa ca cell s j).1 +
        freeCount ca (Engine.innerStep wa ca cell s j).2 ≤
      s.1 + freeCount ca s.2 ∧
      (Engine.innerStep wa ca cell s j).2.length = 20 := by
  unfold Engine.innerStep
  split_ifs with h
  · refine ⟨?_, by simp [hlen]⟩
    have hflip :
        (((List.range 20).filter
            (fun k => decide (k < ca) &&
              !((s.2.set j true).getD k false))).length) + 1 ≤
          ((List.range 20).filter
            (fun k => decide (k < ca) && !(s.2.getD k false))).length := by
      apply filter_length_flip (List.nodup_range 20) (List.mem_range.mpr hj)
      · rw [h.2.1]
        simp [h.1]
      · rw [getD_set_self s.2 j (by omega)]
        simp
      · intro k hk
        rw [getD_set_ne s.2 j k hk]
    simp only [freeCount]
    omega
  · exact ⟨le_refl _, hlen⟩

theorem foldl_innerStep_measure (wa : List Nat) (ca cell : Nat) :
    ∀ (l : List Nat), (∀ j ∈ l, j < 20) → ∀ (s : Nat × List Bool),
      s.2.length = 20 →
      (l.foldl (Engine.innerStep wa ca cell) s).1 +
          freeCount ca (l.foldl (Engine.innerStep wa ca cell) s).2 ≤
        s.1 + freeCount ca s.2 ∧
      (l.foldl (Engine.innerStep wa ca cell) s).2.length = 20 := by
  intro l
  induction l with
  | nil => intro _ s hs; exact ⟨le_refl _, hs⟩
  | cons a t ih =>
      intro hmem s hs
      have h1 := innerStep_measure wa ca cell s a (hmem a (by simp)) hs
      have h2 := ih (fun j hj => hmem j (by simp [hj])) _ h1.2
      simp only [List.foldl_cons]
      exact ⟨le_trans h2.1 h1.1, h2.2⟩

theorem foldl_outerStep_measure (wa : List Nat) (ca : Nat) (wb : List Nat)
    (cb : Nat) :
    ∀ (l : List Nat), ∀ (s : Nat × List Bool),
      s.2.length = 20 →
      (l.foldl (Engine.outerStep wa ca wb cb) s).1 +
          freeCount ca (l.foldl (Engine.outerStep wa ca wb cb) s).2 ≤
        s.1 + freeCount ca s.2 ∧
      (l.foldl (Engine.outerStep wa ca wb cb) s).2.length = 20 := by
  intro l
  induction l with
  | nil => intro s hs; exact ⟨le_refl _, hs⟩
  | cons a t ih =>
      intro s hs
      have h1 : (Engine.outerStep wa ca wb cb s a).1 +
            freeCount ca (Engine.outerStep wa ca wb cb s a).2 ≤
          s.1 + freeCount ca s.2 ∧
          (Engine.outerStep wa ca wb cb s a).2.length = 20 := by
        unfold Engine.outerStep
        split_ifs with h
        · exact foldl_innerStep_measure wa ca (wb.getD a 0)
            (List.range Engine.MAX_WAYPOINTS)
            (fun j hj => List.mem_range.mp hj) s hs
        · exact ⟨le_refl _, hs⟩
      have h2 := ih _ h1.2
      simp only [List.foldl_cons]
      exact ⟨le_trans h2.1 h1.1, h2.2⟩

theorem filter_range_lt_length (n m : Nat) :
    (((List.range n).filter (fun k => decide (k < m))).length) = min n m := by
  induction n with
  | zero => simp
  | succ n ih =>
      rw [List.range_succ, List.filter_append]
      by_cases h : n < m <;> simp [h, ih] <;> omega

/-- The intersection count of `compute_route_similarity` never exceeds
`count_a`, so the `u32` subtraction
`count_a + count_b - intersection_count` in the source never underflows. -/
theorem route_intersection_le (wa : List Nat) (ca : Nat)
    (wb : List Nat) (cb : Nat) :
    Engine.route_intersection wa ca wb cb ≤ ca := by
  have h := foldl_outerStep_measure wa ca wb cb
    (List.range Engine.MAX_WAYPOINTS)
    (0, List.replicate Engine.MAX_WAYPOINTS false)
    (by simp [Engine.MAX_WAYPOINTS])
  have hcong :
      (List.range 20).filter
          (fun k => decide (k < ca) &&
            !((List.replicate Engine.MAX_WAYPOINTS false).getD k false)) =
        (List.range 20).filter (fun k => decide (k < ca)) :=
    List.filter_congr (fun k _ => by
      rw [getD_replicate_false Engine.MAX_WAYPOINTS k]
      simp)
  have hinit :
      freeCount ca (List.replicate Engine.MAX_WAYPOINTS false) = min 20 ca := by
    unfold freeCount
    rw [hcong]
    exact filter_range_lt_length 20 ca
  have hle := h.1
  rw [hinit] at hle
  have hfin : Engine.route_intersection wa ca wb cb ≤ 0 + min 20 ca := by
    unfold Engine.route_intersection Engine.routeLoop
    omega
  omega

theorem compute_route_similarity_le (wa : List Nat) (ca : Nat)
    (wb : List Nat) (cb : Nat) :
    Engine.compute_route_similarity wa ca wb cb ≤ 100 := by
  unfold Engine.compute_route_similarity
  dsimp only
  split_ifs <;> omega

theorem interestCounts_foldl_le (a b : List Bool) :
    ∀ (l : List Nat) (s : Nat × Nat), s.1 ≤ s.2 →
      (l.foldl (Engine.interestStep a b) s).1 ≤
        (l.foldl (Engine.interestStep a b) s).2 := by
  intro l
  induction l with
  | nil => intro s hs; exact hs
  | cons i t ih =>
      intro s hs
      simp only [List.foldl_cons]
      apply ih
      unfold Engine.interestStep
      split_ifs <;> simp_all <;> omega

theorem compute_interest_similarity_le (a b : List Bool) :
    Engine.compute_interest_similarity a b ≤ 100 := by
  have hct : (Engine.interestCounts a b).1 ≤ (Engine.interestCounts a b).2 :=
    interestCounts_foldl_le a b (List.range Engine.MAX_INTERESTS) (0, 0)
      (le_refl 0)
  unfold Engine.compute_interest_similarity
  dsimp only
  split_ifs with h
  · exact le_refl 100
  · unfold Engine.total_nonzero
    rw [if_neg h]
    calc (Engine.interestCounts a b).1 * 100 / (Engine.interestCounts a b).2
        ≤ (Engine.interestCounts a b).2 * 100 /
            (Engine.interestCounts a b).2 :=
          Nat.div_le_div_right (Nat.mul_le_mul_right 100 hct)
      _ = 100 := Eq.symm (Nat.eq_div_of_mul_eq_right h rfl)

/-- `wrap64` is the identity on values that already lie in the `i64`
range. -/
theorem wrap64_eq_self {x : Int} (h1 : -(2 ^ 63) ≤ x) (h2 : x < 2 ^ 63) :
    Engine.wrap64 x = x := by
  unfold Engine.wrap64
  rw [Int.emod_eq_of_lt (by omega) (by omega)]
  omega

theorem tdiv_le_self_of_nonneg {n d : Int} (hn : 0 ≤ n) (hd : 1 ≤ d) :
    Int.tdiv n d ≤ n := by
  rw [Int.tdiv_eq_ediv hn (by omega)]
  exact Int.ediv_le_self d hn

/-- With all four dates within `±2^55` no intermediate of `avg_duration`
leaves the `i64` range, so the wrapping computation agrees with the exact
one. -/
theorem avg_duration_eq (sa ea sb eb : Int)
    (ha : sa < ea) (hb : sb < eb)
    (hsa : -(2 ^ 55) ≤ sa) (hea : ea ≤ 2 ^ 55)
    (hsb : -(2 ^ 55) ≤ sb) (heb : eb ≤ 2 ^ 55) :
    Engine.avg_duration sa ea sb eb = Int.tdiv ((ea - sa) + (eb - sb)) 2 := by
  unfold Engine.avg_duration
  dsimp only
  rw [wrap64_eq_self (x := ea - sa) (by omega) (by omega),
    wrap64_eq_self (x := eb - sb) (by omega) (by omega),
    wrap64_eq_self (by omega) (by omega)]

theorem avg_duration_pos (sa ea sb eb : Int)
    (ha : sa < ea) (hb : sb < eb)
    (hsa : -(2 ^ 55) ≤ sa) (hea : ea ≤ 2 ^ 55)
    (hsb : -(2 ^ 55) ≤ sb) (heb : eb ≤ 2 ^ 55) :
    1 ≤ Engine.avg_duration sa ea sb eb := by
  rw [avg_duration_eq sa ea sb eb ha hb hsa hea hsb heb]
  have h0 : (0:Int) ≤ (ea - sa) + (eb - sb) := by omega
  rw [Int.tdiv_eq_ediv h0 (by norm_num)]
  rw [Int.le_ediv_iff_mul_le (by norm_num)]
  omega

theorem overlap_duration_bounds (sa ea sb eb : Int)
    (hsa : -(2 ^ 55) ≤ sa) (hea : ea ≤ 2 ^ 55)
    (hsb : -(2 ^ 55) ≤ sb) (heb : eb ≤ 2 ^ 55)
    (ha : sa < ea) (hb : sb < eb) :
    0 ≤ Engine.overlap_duration sa ea sb eb ∧
      Engine.overlap_duration sa ea sb eb ≤ 2 ^ 56 := by
  unfold Engine.overlap_duration
  dsimp only
  split_ifs <;>
    first
      | (constructor <;> omega)
      | (rw [wrap64_eq_self (by omega) (by omega)]; constructor <;> omega)

/-- With dates within `±2^55` and `end > start` on both ranges, the date
score is at most 100: no intermediate wraps, the average duration is
positive, and the result is clamped. -/
theorem compute_date_overlap_le (sa ea sb eb : Int)
    (ha : sa < ea) (hb : sb < eb)
    (hsa : -(2 ^ 55) ≤ sa) (hea : ea ≤ 2 ^ 55)
    (hsb : -(2 ^ 55) ≤ sb) (heb : eb ≤ 2 ^ 55) :
    Engine.compute_date_overlap sa ea sb eb ≤ 100 := by
  have hov := overlap_duration_bounds sa ea sb eb hsa hea hsb heb ha hb
  have havg := avg_duration_pos sa ea sb eb ha hb hsa hea hsb heb
  have hanz : Engine.avg_duration_nonzero sa ea sb eb =
      Engine.avg_duration sa ea sb eb := by
    unfold Engine.avg_duration_nonzero
    rw [if_neg (by omega)]
  unfold Engine.compute_date_overlap
  dsimp only
  rw [wrap64_eq_self (x := Engine.overlap_duration sa ea sb eb * 100)
    (by omega) (by omega)]
  have hq0 : 0 ≤ Int.tdiv (Engine.overlap_duration sa ea sb eb * 100)
      (Engine.avg_duration_nonzero sa ea sb eb) :=
    Int.tdiv_nonneg (by omega) (by omega)
  have hqle : Int.tdiv (Engine.overlap_duration sa ea sb eb * 100)
      (Engine.avg_duration_nonzero sa ea sb eb) ≤
        Engine.overlap_duration sa ea sb eb * 100 :=
    tdiv_le_self_of_nonneg (by omega) (by omega)
  rw [wrap64_eq_self (by omega) (by omega)]
  set p := Int.tdiv (Engine.overlap_duration sa ea sb eb * 100)
      (Engine.avg_duration_nonzero sa ea sb eb) with hp
  have hcl : 0 ≤ (if p > 100 then 100 else p) ∧
      (if p > 100 then (100:Int) else p) ≤ 100 := by
    split_ifs <;> omega
  rw [Int.emod_eq_of_lt hcl.1 (by omega)]
  omega

end Triper

/-- C7 counterexample: the claim states that every valid input pair —
counts at most 20, `end > start` on both date ranges — yields all four
scores in [0, 100].  On the `i64`-representable dates `(-2^63 + 101, 100)`
and `(0, 2^63 - 199)`, both with `end > start`, the two durations sum to
`2^64 - 200`, which wraps to `-200` in the 64-bit circuit, making the
average duration `-100`; the percentage `10000 / (-100) = -100` is not
caught by the `> 100` clamp, and `(-100) as u8 = 156`.  The date score is
156 and the weighted total `(100*40 + 156*35 + 100*25) / 100 = 119`, both
above 100. -/
theorem Triper.engine_score_exceeds_100_on_wrap :
    Triper.Examples.overflowTripA.waypoint_count ≤ 20 ∧
    Triper.Examples.overflowTripB.waypoint_count ≤ 20 ∧
    Triper.Examples.overflowTripA.start_date <
      Triper.Examples.overflowTripA.end_date ∧
    Triper.Examples.overflowTripB.start_date <
      Triper.Examples.overflowTripB.end_date ∧
    (Triper.Engine.compute_trip_match Triper.Examples.overflowTripA
        Triper.Examples.overflowTripB).2.1 = 156 ∧
    (Triper.Engine.compute_trip_match Triper.Examples.overflowTripA
        Triper.Examples.overflowTripB).2.2.2 = 119 := by
  decide

/-- C7 (amended): for every input pair with counts at most 20,
`end > start` on both date ranges, and all dates within `±2^55` (so that
no `i64` intermediate of the date computation wraps; the bound is far
beyond any realistic Unix timestamp), each of the four engine outputs —
route, date, interest and total score — is at most 100 (the outputs are
natural numbers, so the lower bound 0 of the interval holds by the
codomain).  Without the date bound the claim fails, see the
counterexample: the 64-bit duration sum can wrap and the wrapped negative
percentage escapes the one-sided clamp. -/
theorem Triper.engine_scores_bounded :
    ∀ (trip_a trip_b : Triper.Engine.TripData),
      trip_a.waypoint_count ≤ 20 → trip_b.waypoint_count ≤ 20 →
      trip_a.start_date < trip_a.end_date →
      trip_b.start_date < trip_b.end_date →
      -(2 ^ 55) ≤ trip_a.start_date → trip_a.end_date ≤ 2 ^ 55 →
      -(2 ^ 55) ≤ trip_b.start_date → trip_b.end_date ≤ 2 ^ 55 →
      (Triper.Engine.compute_trip_match trip_a trip_b).1 ≤ 100 ∧
      (Triper.Engine.compute_trip_match trip_a trip_b).2.1 ≤ 100 ∧
      (Triper.Engine.compute_trip_match trip_a trip_b).2.2.1 ≤ 100 ∧
      (Triper.Engine.compute_trip_match trip_a trip_b).2.2.2 ≤ 100 := by
  intro ta tb hca hcb hda hdb hsa hea hsb heb
  have hr := Triper.compute_route_similarity_le ta.waypoints ta.waypoint_count
    tb.waypoints tb.waypoint_count
  have hd := Triper.compute_date_overlap_le ta.start_date ta.end_date
    tb.start_date tb.end_date hda hdb hsa hea hsb heb
  have hi := Triper.compute_interest_similarity_le ta.interests tb.interests
  unfold Triper.Engine.compute_trip_match
  dsimp only
  refine ⟨hr, hd, hi, ?_⟩
  have hnum :
      Triper.Engine.compute_route_similarity ta.waypoints ta.waypoint_count
            tb.waypoints tb.waypoint_count * 40 +
          Triper.Engine.compute_date_overlap ta.start_date ta.end_date
            tb.start_date tb.end_date * 35 +
          Triper.Engine.compute_interest_similarity ta.interests
            tb.interests * 25 ≤ 10000 := by
    omega
  calc (Triper.Engine.compute_route_similarity ta.waypoints ta.waypoint_count
            tb.waypoints tb.waypoint_count * 40 +
          Triper.Engine.compute_date_overlap ta.start_date ta.end_date
            tb.start_date tb.end_date * 35 +
          Triper.Engine.compute_interest_similarity ta.interests
            tb.interests * 25) / 100
      ≤ 10000 / 100 := Nat.div_le_div_right hnum
    _ = 100 := by norm_num

/-- Witness for C7: the aggregate example satisfies all the hypotheses and
all four bounds. -/
theorem Triper.engine_scores_bounded_witness :
    (Triper.Engine.compute_trip_match Triper.Examples.aggTripA
        Triper.Examples.aggTripB).1 ≤ 100 ∧
    (Triper.Engine.compute_trip_match Triper.Examples.aggTripA
        Triper.Examples.aggTripB).2.1 ≤ 100 ∧
    (Triper.Engine.compute_trip_match Triper.Examples.aggTripA
        Triper.Examples.aggTripB).2.2.1 ≤ 100 ∧
    (Triper.Engine.compute_trip_match Triper.Examples.aggTripA
        Triper.Examples.aggTripB).2.2.2 ≤ 100 :=
  Triper.engine_scores_bounded Triper.Examples.aggTripA
    Triper.Examples.aggTripB (by decide) (by decide) (by decide) (by decide)
    (by decide) (by decide) (by decide) (by decide)

/-- C8: the engine is total, pure and deterministic over the fixed input
shape.  Every division in the circuit is zero-guarded: the guarded
divisors `union_nonzero`, `avg_duration_nonzero` and `total_nonzero` are
nonzero for all inputs whatsoever; the only subtraction on unsigned values,
`count_a + count_b - intersection_count`, never underflows because the
intersection count never exceeds `count_a`; array indexing is over constant
bounds within fixed capacity; the 64-bit date arithmetic wraps rather than
trapping, as secret-shared circuit arithmetic does; and identical inputs
always produce identical outputs.  (The embedding is a total function, so
no other failure mode exists.) -/
theorem Triper.engine_total_deterministic :
    (∀ (wa : List Nat) (ca : Nat) (wb : List Nat) (cb : Nat),
      Triper.Engine.route_union_nonzero wa ca wb cb ≠ 0 ∧
      Triper.Engine.route_intersection wa ca wb cb ≤ ca) ∧
    (∀ sa ea sb eb : Int,
      Triper.Engine.avg_duration_nonzero sa ea sb eb ≠ 0) ∧
    (∀ fa fb : List Bool, Triper.Engine.total_nonzero fa fb ≠ 0) ∧
    (∀ ta1 ta2 tb1 tb2 : Triper.Engine.TripData, ta1 = ta2 → tb1 = tb2 →
      Triper.Engine.compute_trip_match ta1 tb1 =
        Triper.Engine.compute_trip_match ta2 tb2) := by
  refine ⟨?_, ?_, ?_, ?_⟩
  · intro wa ca wb cb
    constructor
    · unfold Triper.Engine.route_union_nonzero
      dsimp only
      split_ifs <;> omega
    · exact Triper.route_intersection_le wa ca wb cb
  · intro sa ea sb eb
    unfold Triper.Engine.avg_duration_nonzero
    split_ifs with h
    · norm_num
    · exact h
  · intro fa fb
    unfold Triper.Engine.total_nonzero
    split_ifs with h
    · norm_num
    · exact h
  · intro ta1 ta2 tb1 tb2 h1 h2
    rw [h1, h2]

/-- Witness for C8: determinism instantiated on the aggregate example. -/
theorem Triper.engine_total_deterministic_witness :
    Triper.Engine.compute_trip_match Triper.Examples.aggTripA
        Triper.Examples.aggTripB =
      Triper.Engine.compute_trip_match Triper.Examples.aggTripA
        Triper.Examples.aggTripB :=
  Triper.engine_total_deterministic.2.2.2 Triper.Examples.aggTripA
    Triper.Examples.aggTripA Triper.Examples.aggTripB Triper.Examples.aggTripB
    rfl rfl
